import Mathlib

/-!
# Verification of the groq-code-cli CLI flows

Shallow embedding of the three source files of the repository:

* `src/core/ai.ts` — the command-recommendation entry point (`main`);
* the commander-based CLI (`runOneShot`, `startChat`, program actions);
* the settings/recommendation binary (`SettingsManager.showFzfMenu`,
  `SettingsManager.showMainMenu`, `handleMenuOption`,
  `runCommandRecommendation`, `main`).

External effects (spawning `fzf` or `bash`, `Agent.create`, `agent.chat`,
`JSON.parse`, readline answers) are modelled as environment inputs: each
flow becomes a pure function from those inputs to a result record tracking
the returned exit code and which side effects (agent creation, `chat`
calls, `bash` spawns, printed diagnostics) occurred.  The `Agent` class
itself lives in `agent.js`, outside the given sources, so its methods are
opaque optional functions on an abstract state, exactly as the CLI code
treats them (optional-chaining invocations).

JavaScript string primitives are embedded structurally on character
lists so that every definition evaluates: `trim()` removes the JS
whitespace set from both ends, `toLowerCase()` maps `Char.toLower`
(ASCII case mapping — no non-ASCII character lowercases to a character
of `"yes"`, `"y"`, `"a"`, `"auto"`, so the comparisons in the code are
unaffected), `split` is single-character splitting, `join` with a space
is `String.intercalate`, and `includes` is substring search.
-/

/-- JS `s.toLowerCase()` (ASCII range, see header note). -/
def jsToLower (s : String) : String := (s.toList.map Char.toLower).asString

/-- The JS `WhiteSpace` and `LineTerminator` character set that
`String.prototype.trim` removes. -/
def isJsSpace (c : Char) : Bool :=
  [0x9, 0xA, 0xB, 0xC, 0xD, 0x20, 0xA0, 0x1680, 0x2028, 0x2029,
    0x202F, 0x205F, 0x3000, 0xFEFF].contains c.toNat ||
  (0x2000 ≤ c.toNat && c.toNat ≤ 0x200A)

/-- JS `s.trim()`. -/
def jsTrim (s : String) : String :=
  (((s.toList.dropWhile isJsSpace).reverse.dropWhile isJsSpace).reverse).asString

/-- JS `s.split(sep)` for a single-character separator, on lists. -/
def splitOnChar (sep : Char) : List Char → List (List Char)
  | [] => [[]]
  | c :: rest =>
    let r := splitOnChar sep rest
    if c = sep then [] :: r
    else
      match r with
      | [] => [[c]]
      | h :: t => (c :: h) :: t

/-- Substring occurrence on character lists (empty list occurs always). -/
def listHasSub : List Char → List Char → Bool
  | s, sub =>
    match s with
    | [] => sub.isEmpty
    | c :: tail => sub.isPrefixOf (c :: tail) || listHasSub tail sub

/-- JS `s.includes(sub)`. -/
def jsIncludes (s sub : String) : Bool := listHasSub s.toList sub.toList

/-- Character class 0x30–0x3F (written `0-?` in the ANSI-strip regex). -/
def isAnsiParam (c : Char) : Bool := 0x30 ≤ c.toNat && c.toNat ≤ 0x3F

/-- Character class 0x20–0x2F (space to slash in the ANSI-strip regex). -/
def isAnsiInter (c : Char) : Bool := 0x20 ≤ c.toNat && c.toNat ≤ 0x2F

/-- Character class 0x40–0x7E (written `@-~` in the ANSI-strip regex). -/
def isAnsiFinal (c : Char) : Bool := 0x40 ≤ c.toNat && c.toNat ≤ 0x7E

/-- Scanner state for the ANSI-escape regex
(`ESC`, opening bracket, parameter bytes 0x30–0x3F, intermediate bytes
0x20–0x2F, one final byte 0x40–0x7E). -/
inductive AnsiMode where
  | normal
  | sawEsc
  | inParams
  | inInters

/-- Global replacement of the ANSI-escape regex by the empty string (the
`strip ANSI` line of the sources), as a left-to-right scan.  The three
byte classes are pairwise disjoint, so greedy maximal-munch is exactly
the regex's backtracking semantics.  `buf` holds the candidate match so
far; on a failing character the candidate is emitted literally and the
scan resumes at that character — only `ESC` can begin a match, and the
candidate contains no `ESC` beyond its failed head, so resuming there is
exactly the regex engine's advance-by-one rescure of the failed region. -/
def stripAnsiCore : List Char → AnsiMode → List Char → List Char
  | [], _, buf => buf
  | c :: rest, .normal, _ =>
    if c = '\x1b' then stripAnsiCore rest .sawEsc ['\x1b']
    else c :: stripAnsiCore rest .normal []
  | c :: rest, .sawEsc, buf =>
    if c = '[' then stripAnsiCore rest .inParams (buf ++ [c])
    else if c = '\x1b' then buf ++ stripAnsiCore rest .sawEsc ['\x1b']
    else buf ++ c :: stripAnsiCore rest .normal []
  | c :: rest, .inParams, buf =>
    if isAnsiParam c then stripAnsiCore rest .inParams (buf ++ [c])
    else if isAnsiInter c then stripAnsiCore rest .inInters (buf ++ [c])
    else if isAnsiFinal c then stripAnsiCore rest .normal []
    else if c = '\x1b' then buf ++ stripAnsiCore rest .sawEsc ['\x1b']
    else buf ++ c :: stripAnsiCore rest .normal []
  | c :: rest, .inInters, buf =>
    if isAnsiInter c then stripAnsiCore rest .inInters (buf ++ [c])
    else if isAnsiFinal c then stripAnsiCore rest .normal []
    else if c = '\x1b' then buf ++ stripAnsiCore rest .sawEsc ['\x1b']
    else buf ++ c :: stripAnsiCore rest .normal []

/-- Strip every ANSI escape sequence from a character list. -/
def stripAnsiList (l : List Char) : List Char := stripAnsiCore l .normal []

/-- The sources' ANSI strip: replace every match of the escape-sequence
regex in `selectedRaw` by the empty string. -/
def stripAnsi (s : String) : String := (stripAnsiList s.toList).asString

/-- The fzf stdout post-processing of the recommendation flow: split the
decoded output on newlines, keep the truthy (non-empty) lines, and take
the first one, defaulting to the empty string. -/
def firstSelection (s : String) : String :=
  (((splitOnChar '\n' s.toList).map List.asString).filter (fun x => x ≠ "")).headD ""

/-! ## Approval callbacks (`runOneShot` and `startChat`) -/

/-- The object returned by the `onToolApproval` callbacks; a missing
`autoApproveSession` property is `none`. -/
structure ApprovalDecision where
  approved : Bool
  autoApproveSession : Option Bool
  deriving DecidableEq, Repr

/-- `startChat`'s `onToolApproval` as a function of the human answer:
on `ans = answer.trim().toLowerCase()`, answers `a` and `auto` yield
approval with `autoApproveSession: true`, answers `y` and `yes` yield
plain approval, and anything else yields denial. -/
def chatOnToolApproval (answer : String) : ApprovalDecision :=
  let ans := jsToLower (jsTrim answer)
  if ans = "a" ∨ ans = "auto" then ⟨true, some true⟩
  else if ans = "y" ∨ ans = "yes" then ⟨true, none⟩
  else ⟨false, none⟩

/-- `runOneShot`'s `onToolApproval`.  The first component records whether
the readline prompt was shown: with `autoApprove` the callback returns
before creating the interface. -/
def oneShotOnToolApproval (autoApprove : Bool) (answer : String) :
    Bool × ApprovalDecision :=
  if autoApprove then (false, ⟨true, some true⟩)
  else
    let ans := jsToLower (jsTrim answer)
    (true,
      if ans = "a" ∨ ans = "auto" then ⟨true, some true⟩
      else if ans = "y" ∨ ans = "yes" then ⟨true, none⟩
      else ⟨false, none⟩)

/-- `startChat`'s `onMaxIterations`: the trimmed lowercased answer must be
exactly `y` or `yes`. -/
def onMaxIterationsAnswer (answer : String) : Bool :=
  let ans := jsToLower (jsTrim answer)
  ans == "y" || ans == "yes"

/-! ## JSON values and the untrusted-payload extraction

`JSON.parse` itself is a JS runtime primitive (external to the sources);
its outcome is an environment input: `none` models a thrown
`SyntaxError`, `some v` the parsed value.  Numbers are embedded as
integers (the recommendation payloads carry strings; numeric formatting
never gates control flow). -/

inductive JsValue where
  | jnull
  | jbool (b : Bool)
  | jnum (n : Int)
  | jstr (s : String)
  | jarr (xs : List JsValue)
  | jobj (fields : List (String × JsValue))

/-- JS `String(v)` on a parsed JSON value.  Arrays convert through
`Array.prototype.join` with a comma, where a `null` element becomes the
empty string; the array cases below inline that join. -/
def jsToString : JsValue → String
  | .jnull => "null"
  | .jbool b => cond b "true" "false"
  | .jnum n => toString n
  | .jstr s => s
  | .jobj _ => "[object Object]"
  | .jarr [] => ""
  | .jarr [.jnull] => ""
  | .jarr [v] => jsToString v
  | .jarr (.jnull :: rest) => "," ++ jsToString (.jarr rest)
  | .jarr (v :: rest) => jsToString v ++ "," ++ jsToString (.jarr rest)
termination_by v => sizeOf v
decreasing_by
  all_goals simp_wf
  all_goals omega

/-- JS truthiness of a parsed JSON value. -/
def jsTruthy : JsValue → Bool
  | .jnull => false
  | .jbool b => b
  | .jnum n => n != 0
  | .jstr s => s != ""
  | .jarr _ => true
  | .jobj _ => true

/-- Property lookup on a parsed object: `JSON.parse` keeps the last
duplicate key, so the last binding wins. -/
def jsLookup (fields : List (String × JsValue)) (key : String) :
    Option JsValue :=
  ((fields.filter (fun p => p.1 = key)).getLast?).map (fun p => p.2)

/-- JS property read `v.cmd`: throws a `TypeError` on `null` (modelled as
`Except.error`), yields `undefined` (`none`) on primitives and arrays,
and looks the key up on objects. -/
def jsGetField (v : JsValue) (key : String) : Except Unit (Option JsValue) :=
  match v with
  | .jnull => .error ()
  | .jobj fields => .ok (jsLookup fields key)
  | _ => .ok none

/-- The recommendation flow's untrusted-payload read: take property
`cmd` of the parsed value, apply the or-else default of the empty string
(JS falsy check), convert with `String(...)`, and trim.  An `error`
models the `TypeError` thrown when the parsed value is `null`, which the
surrounding try/catch converts into the malformed-output error path. -/
def extractCmd (obj : JsValue) : Except Unit String :=
  match jsGetField obj "cmd" with
  | .error _ => .error ()
  | .ok none => .ok (jsTrim "")
  | .ok (some v) => .ok (jsTrim (if jsTruthy v then jsToString v else ""))

/-! ## The command-recommendation flow

`src/core/ai.ts` lines 15–171 and the settings binary's
`runCommandRecommendation` are textually identical; both are embedded by
the single function below.  The environment collects the outcomes of the
external calls the flow makes, in order; the embedding assumes `fzf`
spawns successfully (a missing `fzf` binary takes the asynchronous
`error`-event path, which terminates the process before any `bash`
spawn). -/

structure RecEnv where
  /-- Outcome of `Agent.create` (may throw, e.g. missing credentials). -/
  createResult : Except String Unit
  /-- Outcome of `agent.chat` on the query message. -/
  chatResult : Except String Unit
  /-- The `final` variable after `chat`: set by `onFinalMessage`. -/
  finalMsg : Option String
  /-- Outcome of `JSON.parse(final)`: `none` models a thrown error. -/
  parseResult : Option JsValue
  /-- The fzf process close code (`null` on signal, mapped via `?? 0`). -/
  fzfClose : Option Int
  /-- The accumulated fzf stdout, decoded as UTF-8. -/
  fzfOut : String
  /-- The bash process close code (`null` on signal, mapped via `?? 0`). -/
  bashClose : Option Int

/-- What a run of the recommendation flow did and returned. -/
structure RecResult where
  /-- The number returned by the async `main`, passed to `process.exit`. -/
  code : Int
  /-- The usage message was printed (entry-point argument check). -/
  usagePrinted : Bool
  /-- The initialization-error message was printed. -/
  initErrorPrinted : Bool
  /-- `Agent.create` was attempted. -/
  createAttempted : Bool
  /-- `agent.chat` was called. -/
  chatCalled : Bool
  /-- A `bash -lc` process was spawned with the recommended command. -/
  bashSpawned : Bool
  deriving DecidableEq, Repr

/-- The recommendation flow after the argument check: create the agent,
ask the model for a JSON proposal, validate it, confirm through fzf, and
only then run the command through `bash -lc`. -/
def runCommandRecommendation (env : RecEnv) : RecResult :=
  match env.createResult with
  | .error _ => ⟨1, false, true, true, false, false⟩
  | .ok _ =>
    match env.chatResult with
    | .error _ => ⟨1, false, false, true, true, false⟩
    | .ok _ =>
      match env.finalMsg with
      | none => ⟨1, false, false, true, true, false⟩
      | some final =>
        if final = "" then ⟨1, false, false, true, true, false⟩
        else
          match env.parseResult with
          | none => ⟨1, false, false, true, true, false⟩
          | some obj =>
            match extractCmd obj with
            | .error _ => ⟨1, false, false, true, true, false⟩
            | .ok cmd =>
              if cmd = "" then ⟨1, false, false, true, true, false⟩
              else
                if env.fzfClose.getD 0 ≠ 0 then
                  ⟨130, false, false, true, true, false⟩
                else
                  let selected := stripAnsi (firstSelection env.fzfOut)
                  if selected = "" then ⟨130, false, false, true, true, false⟩
                  else if jsToLower selected ≠ "yes" then
                    ⟨130, false, false, true, true, false⟩
                  else
                    ⟨env.bashClose.getD 0, false, false, true, true, true⟩

/-- `main` of `src/core/ai.ts`: join the argv tail with spaces, trim; an
empty query prints the usage line and returns 2 before any agent exists,
otherwise the flow above runs. -/
def aiMain (args : List String) (env : RecEnv) : RecResult :=
  let query := jsTrim (String.intercalate " " args)
  if query = "" then ⟨2, true, false, false, false, false⟩
  else runCommandRecommendation env

/-! ## The one-shot runner -/

structure OneShotEnv where
  /-- Outcome of `Agent.create`. -/
  createResult : Except String Unit
  /-- Outcome of `agent.chat(query)`. -/
  chatResult : Except String Unit
  /-- The `final` variable after `chat` (set by `onFinalMessage`). -/
  finalMsg : Option String

/-- What `runOneShot` did and returned. -/
structure OneShotResult where
  code : Int
  chatCalled : Bool
  finalPrinted : Bool
  errorPrinted : Bool
  deriving DecidableEq, Repr

/-- `runOneShot`: the whole body sits in one try/catch that returns 1 on
any thrown error; on success the captured final message is printed when
non-null and the runner returns 0. -/
def runOneShot (env : OneShotEnv) : OneShotResult :=
  match env.createResult with
  | .error _ => ⟨1, false, false, true⟩
  | .ok _ =>
    match env.chatResult with
    | .error _ => ⟨1, true, false, true⟩
    | .ok _ => ⟨0, true, env.finalMsg.isSome, false⟩

/-! ## The interactive chat loop

The `Agent` instance comes from `agent.js`, which is not among the given
sources; the interactive code only ever touches it through `chat` and
through optional-chaining calls (`clearHistory`, `saveApiKey`,
`setModel`, `getCurrentModel` may each be absent).  It is therefore
embedded as a record of an effectful `chat` and four *optional* opaque
methods over an abstract state `σ`.  Optional chaining on an absent
method skips the call and yields `undefined` — it never throws — so the
embedding threads an `Except` error channel that an absent method leaves
untouched, while a hypothetical plain call on an absent method would
populate it. -/

structure AgentObj (σ : Type) where
  /-- `agent.chat(line)`: may reject; the loop catches the rejection. -/
  chat : σ → String → Except String σ
  clearHistory : Option (σ → σ)
  saveApiKey : Option (String → σ → σ)
  setModel : Option (String → σ → σ)
  getCurrentModel : Option (σ → String)

/-- Optional-chaining method call with no arguments: absent method, no
effect, no throw. -/
def jsOptCall0 {σ : Type} (f : Option (σ → σ)) (st : σ) : σ :=
  match f with
  | some g => g st
  | none => st

/-- Optional-chaining method call with one argument. -/
def jsOptCall1 {σ : Type} (f : Option (String → σ → σ)) (a : String)
    (st : σ) : σ :=
  match f with
  | some g => g a st
  | none => st

/-- What one pass of `ask()` (one read line) did. -/
structure AskOutcome (σ : Type) where
  /-- `rl.close()` was called and `ask` returned without recursing. -/
  quit : Bool
  /-- `agent.chat` was invoked on the line. -/
  chatCalled : Bool
  /-- The catch branch printed the chat error. -/
  errorPrinted : Bool
  /-- The `showReasoning` flag after the pass. -/
  showReasoning : Bool
  /-- The agent state after the pass. -/
  agentState : σ

/-- One pass of `startChat`'s `ask()` on the line read from the prompt.
`loginAnswer` and `modelAnswer` are the follow-up prompt answers consumed
by the `/login` and `/model` branches.  The `Except` result is the JS
exception channel: `error` would mean an exception escaped `ask`. -/
def askStep {σ : Type} (a : AgentObj σ) (st : σ) (sr : Bool)
    (rawLine loginAnswer modelAnswer : String) :
    Except String (AskOutcome σ) :=
  let line := jsTrim rawLine
  if line = "" then .ok ⟨false, false, false, sr, st⟩
  else
    let cmd := jsToLower line
    if cmd = "/q" ∨ cmd = ":q" ∨ cmd = "exit" ∨ cmd = "quit" then
      .ok ⟨true, false, false, sr, st⟩
    else if cmd = "/help" ∨ cmd = ":help" ∨ cmd = "--help" ∨ cmd = "-h" then
      .ok ⟨false, false, false, sr, st⟩
    else if cmd = "/reasoning" then
      .ok ⟨false, false, false, !sr, st⟩
    else if cmd = "/clear" then
      .ok ⟨false, false, false, sr, jsOptCall0 a.clearHistory st⟩
    else if cmd = "/login" then
      .ok ⟨false, false, false, sr, jsOptCall1 a.saveApiKey (jsTrim loginAnswer) st⟩
    else if cmd = "/model" then
      .ok ⟨false, false, false, sr, jsOptCall1 a.setModel (jsTrim modelAnswer) st⟩
    else
      match a.chat st line with
      | .ok st2 => .ok ⟨false, true, false, sr, st2⟩
      | .error _ => .ok ⟨false, true, true, sr, st⟩

/-- One scripted line of interactive input with its follow-up answers. -/
structure AskInput where
  line : String
  loginAnswer : String
  modelAnswer : String

/-- The recursive `ask()` loop over a finite script of input lines:
returns whether `agent.chat` was ever called.  An exhausted script means
the session was still prompting when input ended. -/
def chatLoop {σ : Type} (a : AgentObj σ) (st : σ) (sr : Bool) :
    List AskInput → Bool
  | [] => false
  | i :: rest =>
    match askStep a st sr i.line i.loginAnswer i.modelAnswer with
    | .ok r => r.chatCalled || (!r.quit && chatLoop a r.agentState r.showReasoning rest)
    | .error _ => false

/-- Result of `startChat`: whether `process.exit` was called (and with
which code), whether the initialization error was printed, and whether
any `chat` call happened. -/
structure StartChatResult where
  exitCalledWith : Option Int
  initErrorPrinted : Bool
  chatCalled : Bool
  deriving DecidableEq, Repr

/-- `startChat`: create the agent; on a thrown creation error print the
initialization message and call `process.exit(1)`; otherwise install the
callbacks and run the `ask()` loop. -/
def startChat {σ : Type} (createResult : Except String (AgentObj σ × σ))
    (script : List AskInput) : StartChatResult :=
  match createResult with
  | .error _ => ⟨some 1, true, false⟩
  | .ok (a, st) => ⟨none, false, chatLoop a st false script⟩

/-! ## The settings menu (`SettingsManager`) -/

/-- A menu entry as declared in `MENU_OPTIONS` (the `color` field only
feeds chalk and is dropped). -/
structure MenuOption where
  id : String
  title : String
  description : String

/-- The seven entries of the settings main menu, in declaration order. -/
def MENU_OPTIONS : List MenuOption :=
  [ ⟨"login", "ログイン設定", "Groq APIキーを設定"⟩,
    ⟨"model", "モデル選択", "使用するAIモデルを変更"⟩,
    ⟨"clear", "履歴クリア", "会話履歴をクリア"⟩,
    ⟨"reasoning", "リーズニング表示", "AI推論過程の表示を切替"⟩,
    ⟨"stats", "セッション統計", "トークン使用量と統計を表示"⟩,
    ⟨"help", "ヘルプ", "利用可能なコマンドを表示"⟩,
    ⟨"exit", "終了", "設定画面を終了"⟩ ]

/-- The `for` loop at the end of `showFzfMenu`: return the id of the
first option whose title occurs in the output, else null. -/
def selectOption (out : String) : List MenuOption → Option String
  | [] => none
  | o :: rest => if jsIncludes out o.title then some o.id else selectOption out rest

/-- `SettingsManager.showFzfMenu`, as a function of the fzf close code
(`null` mapped via `?? 0`) and the decoded stdout: null on a non-zero
exit, null on whitespace-only output, otherwise scan the options for the
first title contained in the trimmed output. -/
def showFzfMenu (fzfClose : Option Int) (rawOut : String)
    (options : List MenuOption) : Option String :=
  if fzfClose.getD 0 ≠ 0 then none
  else
    let out := jsTrim rawOut
    if out = "" then none
    else selectOption out options

/-- The boolean returned by `handleMenuOption` (its `shouldExit`): every
recognized case and the default fall through to the continue prompt and
return false; only `exit` returns true. -/
def handleMenuOption (optionId : String) : Bool :=
  match optionId with
  | "login" => false
  | "model" => false
  | "clear" => false
  | "reasoning" => false
  | "stats" => false
  | "help" => false
  | "exit" => true
  | _ => false

/-- One scripted fzf interaction: close code and stdout. -/
structure FzfRound where
  close : Option Int
  out : String

/-- How a run of the main-menu `while (true)` loop ended on a finite
script of fzf interactions. -/
inductive MenuLoopResult where
  | terminated
  | exhausted
  deriving DecidableEq, Repr

/-- `SettingsManager.showMainMenu`: loop forever, breaking when the menu
returns null or when handling the selection says to exit. -/
def showMainMenu : List FzfRound → MenuLoopResult
  | [] => .exhausted
  | r :: rest =>
    match showFzfMenu r.close r.out MENU_OPTIONS with
    | none => .terminated
    | some id => if handleMenuOption id then .terminated else showMainMenu rest

/-- The loop-breaking condition of one `showMainMenu` iteration. -/
def menuStops (r : FzfRound) : Bool :=
  match showFzfMenu r.close r.out MENU_OPTIONS with
  | none => true
  | some id => handleMenuOption id

/-! ## Claims -/

/-- C2: the one-shot and interactive approval callbacks implement the same
mapping.  With the auto-approve flag the one-shot callback resolves
`{approved: true, autoApproveSession: true}` without prompting; otherwise
both callbacks approve with session auto-approval exactly on trimmed
lowercased answers `a` and `auto`, approve plainly exactly on `y` and
`yes`, and deny every other answer. -/
theorem C2_approval_callbacks_agree (answer : String) :
    oneShotOnToolApproval true answer = (false, ⟨true, some true⟩) ∧
    oneShotOnToolApproval false answer = (true, chatOnToolApproval answer) ∧
    (chatOnToolApproval answer = ⟨true, some true⟩ ↔
      (jsToLower (jsTrim answer) = "a" ∨ jsToLower (jsTrim answer) = "auto")) ∧
    (chatOnToolApproval answer = ⟨true, none⟩ ↔
      (jsToLower (jsTrim answer) = "y" ∨ jsToLower (jsTrim answer) = "yes")) ∧
    (¬(jsToLower (jsTrim answer) = "a" ∨ jsToLower (jsTrim answer) = "auto") →
      ¬(jsToLower (jsTrim answer) = "y" ∨ jsToLower (jsTrim answer) = "yes") →
      chatOnToolApproval answer = ⟨false, none⟩) := by
  by_cases h1 : jsToLower (jsTrim answer) = "a" ∨ jsToLower (jsTrim answer) = "auto"
  · have h2 : ¬(jsToLower (jsTrim answer) = "y" ∨ jsToLower (jsTrim answer) = "yes") := by
      rcases h1 with h1 | h1 <;> rw [h1] <;> decide
    refine ⟨rfl, rfl, ?_, ?_, ?_⟩ <;> simp_all [chatOnToolApproval]
  · by_cases h2 : jsToLower (jsTrim answer) = "y" ∨ jsToLower (jsTrim answer) = "yes" <;>
      refine ⟨rfl, rfl, ?_, ?_, ?_⟩ <;> simp_all [chatOnToolApproval]

/-- C2 witness: concrete answers exercise each branch of the mapping. -/
theorem C2_approval_callbacks_agree_witness :
    chatOnToolApproval " YES " = ⟨true, none⟩ ∧
    chatOnToolApproval "auto" = ⟨true, some true⟩ ∧
    chatOnToolApproval "nope" = ⟨false, none⟩ :=
  ⟨((C2_approval_callbacks_agree " YES ").2.2.2.1).mpr (by decide),
   ((C2_approval_callbacks_agree "auto").2.2.1).mpr (by decide),
   (C2_approval_callbacks_agree "nope").2.2.2.2 (by decide) (by decide)⟩

/-- C3: the interactive `onMaxIterations` callback returns true exactly
when the trimmed lowercased answer is `y` or `yes`; in particular the
empty answer yields false, so any non-affirmative answer ends the turn. -/
theorem C3_max_iterations_affirmative (answer : String) :
    (onMaxIterationsAnswer answer = true ↔
      (jsToLower (jsTrim answer) = "y" ∨ jsToLower (jsTrim answer) = "yes")) ∧
    onMaxIterationsAnswer "" = false := by
  constructor
  · unfold onMaxIterationsAnswer
    simp [Bool.or_eq_true, beq_iff_eq]
  · decide

/-- C7: every recognized interactive command line — `/help`,
`/reasoning`, `/clear`, `/login`, `/model`, `/q`, `:q`, `exit`, `quit`
after trimming and lowercasing — is handled locally by `ask()` without
invoking `agent.chat`, and the pass completes without a thrown exception
for every agent, in particular one on which every optional method
(`clearHistory`, `saveApiKey`, `setModel`, `getCurrentModel`) is
absent. -/
theorem C7_recognized_commands_local (σ : Type) (a : AgentObj σ) (st : σ)
    (sr : Bool) (line loginAnswer modelAnswer : String)
    (h : jsToLower (jsTrim line) ∈
      ["/help", "/reasoning", "/clear", "/login", "/model",
       "/q", ":q", "exit", "quit"]) :
    ∃ r, askStep a st sr line loginAnswer modelAnswer = .ok r ∧
      r.chatCalled = false := by
  have hne : jsTrim line ≠ "" := by
    intro he
    rw [he] at h
    exact absurd h (by decide)
  simp only [List.mem_cons, List.not_mem_nil, or_false] at h
  unfold askStep
  rcases h with h | h | h | h | h | h | h | h | h <;>
    simp [hne, h]

/-- C7 witness: the `/clear` command on an agent with every optional
method absent completes without an exception and without a chat call. -/
theorem C7_recognized_commands_local_witness :
    ∃ r, askStep (σ := Unit)
        ⟨fun _ _ => .ok (), none, none, none, none⟩ () false
        " /CLEAR " "" "" = .ok r ∧ r.chatCalled = false :=
  C7_recognized_commands_local Unit
    ⟨fun _ _ => .ok (), none, none, none, none⟩ () false
    " /CLEAR " "" "" (by decide)

/-- C4: a creation failure is fatal and precedes any model call — the
recommendation flow prints the initialization error, returns 1 and never
calls `chat`; the interactive entry prints the initialization error,
calls `process.exit(1)` and never calls `chat`. -/
theorem C4_create_failure_fail_fast :
    (∀ (env : RecEnv) (e : String), env.createResult = .error e →
      (runCommandRecommendation env).code = 1 ∧
      (runCommandRecommendation env).initErrorPrinted = true ∧
      (runCommandRecommendation env).chatCalled = false) ∧
    (∀ (σ : Type) (e : String) (script : List AskInput),
      startChat (σ := σ) (.error e) script =
        ⟨some 1, true, false⟩) := by
  constructor
  · intro env e he
    unfold runCommandRecommendation
    rw [he]
    exact ⟨rfl, rfl, rfl⟩
  · intro σ e script
    rfl

/-- C4 witness: a concrete failing creation in both entry points. -/
theorem C4_create_failure_fail_fast_witness :
    ((runCommandRecommendation
        ⟨.error "no key", .ok (), none, none, none, "", none⟩).code = 1 ∧
      (runCommandRecommendation
        ⟨.error "no key", .ok (), none, none, none, "", none⟩).initErrorPrinted = true ∧
      (runCommandRecommendation
        ⟨.error "no key", .ok (), none, none, none, "", none⟩).chatCalled = false) ∧
    startChat (σ := Unit) (.error "no key") [] = ⟨some 1, true, false⟩ :=
  ⟨C4_create_failure_fail_fast.1 _ "no key" rfl,
   C4_create_failure_fail_fast.2 Unit "no key" []⟩

/-- C8: with no arguments, or with arguments whose space-join trims to
the empty string, the command-recommendation entry point prints the
usage message and returns 2 without attempting agent creation and
without any chat call. -/
theorem C8_empty_query_usage (args : List String) (env : RecEnv)
    (h : jsTrim (String.intercalate " " args) = "") :
    aiMain args env = ⟨2, true, false, false, false, false⟩ := by
  unfold aiMain
  rw [h]
  rfl

/-- C8 witness: the entry point invoked with a lone whitespace argument. -/
theorem C8_empty_query_usage_witness :
    aiMain [" "] ⟨.ok (), .ok (), none, none, none, "", none⟩ =
      ⟨2, true, false, false, false, false⟩ :=
  C8_empty_query_usage [" "] _ (by decide)

/-- C6: an error thrown by `agent.chat` is handled by each caller — the
one-shot runner's try/catch returns exit code 1 instead of 0, the
recommendation flow returns 1 without spawning bash, and the interactive
`ask()` pass catches the rejection, prints it, and neither quits nor
loses the session state, so the loop prompts for the next line. -/
theorem C6_chat_error_propagation :
    (∀ (env : OneShotEnv) (e : String), env.createResult = .ok () →
      env.chatResult = .error e →
      (runOneShot env).code = 1 ∧ (runOneShot env).errorPrinted = true) ∧
    (∀ (env : RecEnv) (e : String), env.createResult = .ok () →
      env.chatResult = .error e →
      (runCommandRecommendation env).code = 1 ∧
      (runCommandRecommendation env).bashSpawned = false) ∧
    (∀ (σ : Type) (a : AgentObj σ) (st : σ) (sr : Bool)
      (line loginAnswer modelAnswer e : String),
      jsTrim line ≠ "" →
      jsToLower (jsTrim line) ∉
        ["/q", ":q", "exit", "quit", "/help", ":help", "--help", "-h",
         "/reasoning", "/clear", "/login", "/model"] →
      a.chat st (jsTrim line) = .error e →
      askStep a st sr line loginAnswer modelAnswer =
        .ok ⟨false, true, true, sr, st⟩) := by
  refine ⟨?_, ?_, ?_⟩
  · intro env e hc hch
    unfold runOneShot
    rw [hc, hch]
    exact ⟨rfl, rfl⟩
  · intro env e hc hch
    unfold runCommandRecommendation
    rw [hc, hch]
    exact ⟨rfl, rfl⟩
  · intro σ a st sr line loginAnswer modelAnswer e hne hmem hchat
    simp only [List.mem_cons, List.not_mem_nil, or_false, not_or] at hmem
    obtain ⟨h1, h2, h3, h4, h5, h6, h7, h8, h9, h10, h11, h12⟩ := hmem
    unfold askStep
    simp [hne, h1, h2, h3, h4, h5, h6, h7, h8, h9, h10, h11, h12, hchat]

/-- C6 witness: a failing chat in each of the three callers. -/
theorem C6_chat_error_propagation_witness :
    ((runOneShot ⟨.ok (), .error "boom", none⟩).code = 1 ∧
      (runOneShot ⟨.ok (), .error "boom", none⟩).errorPrinted = true) ∧
    ((runCommandRecommendation
        ⟨.ok (), .error "boom", none, none, none, "", none⟩).code = 1 ∧
      (runCommandRecommendation
        ⟨.ok (), .error "boom", none, none, none, "", none⟩).bashSpawned = false) ∧
    askStep (σ := Unit) ⟨fun _ _ => .error "boom", none, none, none, none⟩
        () false "hello" "" "" = .ok ⟨false, true, true, false, ()⟩ :=
  ⟨C6_chat_error_propagation.1 _ "boom" rfl rfl,
   C6_chat_error_propagation.2.1 _ "boom" rfl rfl,
   C6_chat_error_propagation.2.2 Unit
     ⟨fun _ _ => .error "boom", none, none, none, none⟩ () false
     "hello" "" "" "boom" (by decide) (by decide) rfl⟩

/-- C1: in the command-recommendation flow, once a command proposal has
been extracted, `bash -lc` is spawned exactly when the fzf confirmation
process closed with code 0 and the ANSI-stripped first selection line
lowercases to `yes`; in every other case the flow returns exit code 130
and bash is never spawned. -/
theorem C1_confirmation_gates_bash (env : RecEnv)
    (hc : env.createResult = .ok ())
    (hch : env.chatResult = .ok ())
    (hf : ∃ f, env.finalMsg = some f ∧ f ≠ "")
    (hp : ∃ obj cmd, env.parseResult = some obj ∧
      extractCmd obj = .ok cmd ∧ cmd ≠ "") :
    ((runCommandRecommendation env).bashSpawned = true ↔
      (env.fzfClose.getD 0 = 0 ∧
        jsToLower (stripAnsi (firstSelection env.fzfOut)) = "yes")) ∧
    ((env.fzfClose.getD 0 ≠ 0 ∨
        jsToLower (stripAnsi (firstSelection env.fzfOut)) ≠ "yes") →
      (runCommandRecommendation env).code = 130 ∧
      (runCommandRecommendation env).bashSpawned = false) := by
  obtain ⟨f, hf1, hf2⟩ := hf
  obtain ⟨obj, cmd, hp1, hp2, hp3⟩ := hp
  have hred : runCommandRecommendation env =
      (if env.fzfClose.getD 0 ≠ 0 then ⟨130, false, false, true, true, false⟩
       else if stripAnsi (firstSelection env.fzfOut) = "" then
         ⟨130, false, false, true, true, false⟩
       else if jsToLower (stripAnsi (firstSelection env.fzfOut)) ≠ "yes" then
         ⟨130, false, false, true, true, false⟩
       else ⟨env.bashClose.getD 0, false, false, true, true, true⟩) := by
    simp [runCommandRecommendation, hc, hch, hf1, hp1, hp2, hf2, hp3]
  rw [hred]
  by_cases hz : env.fzfClose.getD 0 = 0
  · by_cases hy : jsToLower (stripAnsi (firstSelection env.fzfOut)) = "yes"
    · have hsne : stripAnsi (firstSelection env.fzfOut) ≠ "" := by
        intro he
        rw [he] at hy
        exact absurd hy (by decide)
      simp [hz, hy, hsne]
    · by_cases hse : stripAnsi (firstSelection env.fzfOut) = "" <;>
        simp [hz, hy, hse] <;> decide
  · simp [hz]

/-- Environment of an approved run: every stage of the recommendation
flow succeeds and the user picks the green `Yes` line in fzf. -/
def approvedRunEnv : RecEnv :=
  ⟨.ok (), .ok (), some "proposal",
   some (.jobj [("cmd", .jstr "ls -la"), ("reason", .jstr "一覧表示のため")]),
   some 0, "\x1b[32mYes\x1b[39m\n", some 0⟩

/-- C1 witness: on the approved-run environment the confirmation
conditions hold and bash is spawned; on the same environment with the
`No` line selected the flow returns 130 without bash. -/
theorem C1_confirmation_gates_bash_witness :
    (runCommandRecommendation approvedRunEnv).bashSpawned = true ∧
    ((runCommandRecommendation
        { approvedRunEnv with fzfOut := "\x1b[31mNo\x1b[39m\n" }).code = 130 ∧
      (runCommandRecommendation
        { approvedRunEnv with fzfOut := "\x1b[31mNo\x1b[39m\n" }).bashSpawned = false) :=
  ⟨((C1_confirmation_gates_bash approvedRunEnv rfl rfl ⟨"proposal", rfl, by decide⟩
      ⟨_, "ls -la", rfl,
        by simp [extractCmd, jsGetField, jsLookup, jsToString, jsTruthy]; decide,
        by decide⟩).1).mpr (by decide),
   (C1_confirmation_gates_bash _ rfl rfl ⟨"proposal", rfl, by decide⟩
      ⟨_, "ls -la", rfl,
        by simp [extractCmd, jsGetField, jsLookup, jsToString, jsTruthy]; decide,
        by decide⟩).2 (by right; decide)⟩

/-- C5: when no final message was delivered, or the final message is not
valid JSON, or the parsed value yields an absent or empty-after-trim
`cmd` field (including the `TypeError` on a parsed `null`), the
recommendation flow returns exit code 1 and never spawns bash. -/
theorem C5_invalid_payload_rejected (env : RecEnv)
    (hc : env.createResult = .ok ())
    (hch : env.chatResult = .ok ())
    (h : env.finalMsg = none ∨
      ∃ f, env.finalMsg = some f ∧ f ≠ "" ∧
        (env.parseResult = none ∨
          ∃ obj, env.parseResult = some obj ∧
            (extractCmd obj = .error () ∨ extractCmd obj = .ok ""))) :
    (runCommandRecommendation env).code = 1 ∧
    (runCommandRecommendation env).bashSpawned = false := by
  rcases h with h | ⟨f, hf1, hf2, h⟩
  · simp [runCommandRecommendation, hc, hch, h]
  · rcases h with h | ⟨obj, hp1, h⟩
    · simp [runCommandRecommendation, hc, hch, hf1, hf2, h]
    · rcases h with h | h <;>
        simp [runCommandRecommendation, hc, hch, hf1, hf2, hp1, h]

/-- C5 witness: a missing final message, a JSON parse failure, a `null`
payload, and a payload without a `cmd` key each return 1 with no bash. -/
theorem C5_invalid_payload_rejected_witness :
    ((runCommandRecommendation
        ⟨.ok (), .ok (), none, none, some 0, "Yes\n", some 0⟩).code = 1 ∧
      (runCommandRecommendation
        ⟨.ok (), .ok (), none, none, some 0, "Yes\n", some 0⟩).bashSpawned = false) ∧
    ((runCommandRecommendation
        ⟨.ok (), .ok (), some "not json", none, some 0, "Yes\n", some 0⟩).code = 1 ∧
      (runCommandRecommendation
        ⟨.ok (), .ok (), some "not json", none, some 0, "Yes\n", some 0⟩).bashSpawned = false) ∧
    ((runCommandRecommendation
        ⟨.ok (), .ok (), some "null", some .jnull, some 0, "Yes\n", some 0⟩).code = 1 ∧
      (runCommandRecommendation
        ⟨.ok (), .ok (), some "null", some .jnull, some 0, "Yes\n", some 0⟩).bashSpawned = false) ∧
    ((runCommandRecommendation
        ⟨.ok (), .ok (), some "obj", some (.jobj [("reason", .jstr "r")]),
          some 0, "Yes\n", some 0⟩).code = 1 ∧
      (runCommandRecommendation
        ⟨.ok (), .ok (), some "obj", some (.jobj [("reason", .jstr "r")]),
          some 0, "Yes\n", some 0⟩).bashSpawned = false) :=
  ⟨C5_invalid_payload_rejected _ rfl rfl (Or.inl rfl),
   C5_invalid_payload_rejected _ rfl rfl
     (Or.inr ⟨"not json", rfl, by decide, Or.inl rfl⟩),
   C5_invalid_payload_rejected _ rfl rfl
     (Or.inr ⟨"null", rfl, by decide, Or.inr ⟨.jnull, rfl, Or.inl rfl⟩⟩),
   C5_invalid_payload_rejected _ rfl rfl
     (Or.inr ⟨"obj", rfl, by decide,
       Or.inr ⟨.jobj [("reason", .jstr "r")], rfl, Or.inr rfl⟩⟩)⟩

/-- C9: when every stage succeeds and the user approves the command in
fzf, the flow's return value is the close code of the spawned bash
process, with a `null` close code mapped to 0. -/
theorem C9_bash_code_passthrough (env : RecEnv)
    (hc : env.createResult = .ok ())
    (hch : env.chatResult = .ok ())
    (hf : ∃ f, env.finalMsg = some f ∧ f ≠ "")
    (hp : ∃ obj cmd, env.parseResult = some obj ∧
      extractCmd obj = .ok cmd ∧ cmd ≠ "")
    (hz : env.fzfClose.getD 0 = 0)
    (hyes : jsToLower (stripAnsi (firstSelection env.fzfOut)) = "yes") :
    (runCommandRecommendation env).code = env.bashClose.getD 0 ∧
    (runCommandRecommendation env).bashSpawned = true := by
  obtain ⟨f, hf1, hf2⟩ := hf
  obtain ⟨obj, cmd, hp1, hp2, hp3⟩ := hp
  have hsne : stripAnsi (firstSelection env.fzfOut) ≠ "" := by
    intro he
    rw [he] at hyes
    exact absurd hyes (by decide)
  simp [runCommandRecommendation, hc, hch, hf1, hp1, hp2, hf2, hp3, hz,
    hyes, hsne]

/-- Environment of an approved run whose bash process closes with a
`null` code (killed by a signal). -/
def approvedNullCloseEnv : RecEnv :=
  ⟨.ok (), .ok (), some "proposal",
   some (.jobj [("cmd", .jstr "pwd"), ("reason", .jstr "表示のため")]),
   some 0, "Yes\n", none⟩

/-- C9 witness: the approved run with a `null` bash close code returns
the mapped code of that process. -/
theorem C9_bash_code_passthrough_witness :
    (runCommandRecommendation approvedNullCloseEnv).code =
      approvedNullCloseEnv.bashClose.getD 0 ∧
    (runCommandRecommendation approvedNullCloseEnv).bashSpawned = true :=
  C9_bash_code_passthrough approvedNullCloseEnv rfl rfl
    ⟨"proposal", rfl, by decide⟩
    ⟨_, "pwd", rfl,
      by simp [extractCmd, jsGetField, jsLookup, jsToString, jsTruthy]; decide,
      by decide⟩
    (by decide) (by decide)

theorem selectOption_eq_find (out : String) (opts : List MenuOption) :
    selectOption out opts =
      (opts.find? (fun t => jsIncludes out t.title)).map MenuOption.id := by
  induction opts with
  | nil => rfl
  | cons o rest ih =>
    by_cases h : jsIncludes out o.title = true
    · simp [selectOption, List.find?_cons, h]
    · simp [selectOption, List.find?_cons, h, ih]

/-- C10: `showFzfMenu` returns null whenever fzf closes with a non-zero
code or its trimmed output is empty; otherwise it returns the id of the
first option, in declaration order, whose title occurs as a substring of
the trimmed output (null when none matches).  `handleMenuOption` asks to
exit only for the `exit` option, and the `showMainMenu` loop terminates
exactly when some iteration's selection is null or handles to exit. -/
theorem C10_menu_selection_and_loop :
    (∀ (c : Option Int) (o : String) (opts : List MenuOption),
      (c.getD 0 ≠ 0 ∨ jsTrim o = "") → showFzfMenu c o opts = none) ∧
    (∀ (c : Option Int) (o : String) (opts : List MenuOption),
      c.getD 0 = 0 → jsTrim o ≠ "" →
      showFzfMenu c o opts =
        (opts.find? (fun t => jsIncludes (jsTrim o) t.title)).map MenuOption.id) ∧
    (∀ optionId : String, handleMenuOption optionId = true ↔ optionId = "exit") ∧
    (∀ script : List FzfRound,
      (showMainMenu script = .terminated ↔ ∃ r ∈ script, menuStops r = true)) := by
  refine ⟨?_, ?_, ?_, ?_⟩
  · rintro c o opts (h | h) <;> simp [showFzfMenu, h]
  · intro c o opts hz hne
    simp [showFzfMenu, hz, hne, selectOption_eq_find]
  · intro optionId
    unfold handleMenuOption
    split <;> simp_all
  · intro script
    induction script with
    | nil => simp [showMainMenu]
    | cons r rest ih =>
      unfold showMainMenu
      cases hs : showFzfMenu r.close r.out MENU_OPTIONS with
      | none => simp [menuStops, hs]
      | some id =>
        by_cases hh : handleMenuOption id = true
        · simp [menuStops, hs, hh]
        · simp [menuStops, hs, hh, ih]

/-- C10 witness: a cancelled menu, a concrete selection of the model
entry, and a one-round loop that terminates on the exit entry. -/
theorem C10_menu_selection_and_loop_witness :
    showFzfMenu (some 130) "何か" MENU_OPTIONS = none ∧
    showFzfMenu (some 0) " モデル選択 - 使用するAIモデルを変更\n" MENU_OPTIONS =
      some "model" ∧
    showMainMenu [⟨some 0, "終了 - 設定画面を終了\n"⟩] = .terminated :=
  ⟨C10_menu_selection_and_loop.1 (some 130) "何か" MENU_OPTIONS
     (Or.inl (by decide)),
   (C10_menu_selection_and_loop.2.1 (some 0)
       " モデル選択 - 使用するAIモデルを変更\n" MENU_OPTIONS rfl
       (by decide)).trans (by decide),
   (C10_menu_selection_and_loop.2.2.2 [⟨some 0, "終了 - 設定画面を終了\n"⟩]).mpr
     ⟨⟨some 0, "終了 - 設定画面を終了\n"⟩, List.mem_singleton.mpr rfl,
       by decide⟩⟩
